import Mathlib

/-!
Verification development for the chat-driven todo application
(`backend/src/mcp/tools.py`, `backend/src/mcp/server.py`,
`backend/src/agents/task_agent.py`, `backend/src/routes/chat.py`).

The Python sources are shallowly embedded: the task store is a `List Task`,
each tool is a pure function from the store to an `Except` result (a raised
`ValueError` becomes `Except.error`, in which case the surrounding unit of
work rolls back and the store is unchanged), and the SQL `ORDER BY
created_at DESC` of the store collaborator is modelled by a stable insertion
sort.  Python strings are Lean `String`s; `str.strip`, `str.lower`,
`str.split(sep, 1)` and friends are re-implemented below on `List Char`.
Standard-library collaborators whose internals are out of scope
(`datetime.fromisoformat`, `datetime.strptime`, token verification, the Groq
network client) are passed in as function parameters.
-/

/-! ## Python string primitives -/

/-- `message.lower()`: character-wise lowercasing. -/
def pyLower (s : String) : String := ⟨s.data.map Char.toLower⟩

/-- Both-ends whitespace trim on a character list, as Python `str.strip()`. -/
def stripList (l : List Char) : List Char :=
  ((l.dropWhile Char.isWhitespace).reverse.dropWhile Char.isWhitespace).reverse

/-- Python `str.strip()` with no argument. -/
def pyStrip (s : String) : String := ⟨stripList s.data⟩

/-- Both-ends trim of every occurrence of one character, as Python
`str.strip('"')` or `str.strip("'")`. -/
def trimCharEnds (c : Char) (s : String) : String :=
  ⟨((s.data.dropWhile (· == c)).reverse.dropWhile (· == c)).reverse⟩

/-- Both-ends trim of any character from a set, as Python `str.strip('{}')`. -/
def trimAnyEnds (cs : List Char) (s : List Char) : List Char :=
  ((s.dropWhile (cs.contains ·)).reverse.dropWhile (cs.contains ·)).reverse

/-- Substring occurrence on character lists (Python `needle in haystack`):
true iff `n` occurs as a contiguous infix of the second list.  The empty
needle occurs in every string, as in Python. -/
def subL (n : List Char) : List Char → Bool
  | [] => n.isEmpty
  | c :: t => n.isPrefixOf (c :: t) || subL n t

/-- Python `needle in haystack` on strings. -/
def subS (n h : String) : Bool := subL n.data h.data

/-- Split a character list at the first occurrence of `sep`: the part before
it and the part after it, or `none` when `sep` does not occur. -/
def splitFirstL (sep : List Char) : List Char → Option (List Char × List Char)
  | [] => none
  | c :: t =>
    if sep.isPrefixOf (c :: t) then some ([], (c :: t).drop sep.length)
    else
      match splitFirstL sep t with
      | none => none
      | some (a, b) => some (c :: a, b)

/-- Python `s.split(sep, 1)` when `sep` occurs in `s`: the text before the
first occurrence of `sep` and everything after it (and `(s, "")` when it
does not occur, a case the callers guard against). -/
def splitFirst (s sep : String) : String × String :=
  match splitFirstL sep.data s.data with
  | none => (s, "")
  | some (a, b) => (⟨a⟩, ⟨b⟩)

/-- Python `s.startswith(p)`. -/
def startsWith (p s : String) : Bool := p.data.isPrefixOf s.data

/-- Character-count drop (`s[n:]` in Python). -/
def strDrop (s : String) (n : Nat) : String := ⟨s.data.drop n⟩

/-- Case-insensitive substring match, as SQL `title ILIKE '%needle%'`
(wildcard characters inside the needle are not modelled). -/
def containsIns (hay needle : String) : Bool :=
  subL (pyLower needle).data (pyLower hay).data

/-! ## UUID parsing

Models the core of the CPython `uuid.UUID(str)` constructor used by the
tools: braces are stripped from the ends, dashes are removed, and the
remainder must be exactly 32 hexadecimal digits (the `urn:`/`uuid:` prefixed
forms of the stdlib constructor are not modelled; no input in this
development uses them). -/

/-- Value of one hexadecimal digit. -/
def hexVal (c : Char) : Option Nat :=
  if '0' ≤ c ∧ c ≤ '9' then some (c.toNat - '0'.toNat)
  else if 'a' ≤ c ∧ c ≤ 'f' then some (c.toNat - 'a'.toNat + 10)
  else if 'A' ≤ c ∧ c ≤ 'F' then some (c.toNat - 'A'.toNat + 10)
  else none

/-- Big-endian hexadecimal value of a character list; `none` on any
non-hexadecimal character. -/
def hexList : List Char → Nat → Option Nat
  | [], acc => some acc
  | c :: t, acc =>
    match hexVal c with
    | none => none
    | some v => hexList t (acc * 16 + v)

/-- `uuid.UUID(s)` returning the 128-bit value as a `Nat`, or `none` when the
constructor would raise `ValueError`. -/
def pyUUIDParse (s : String) : Option Nat :=
  let core := (trimAnyEnds ['{', '}'] s.data).filter (· ≠ '-')
  if core.length = 32 then hexList core 0 else none

/-! ## JSON-ish values and Python dynamic-typing errors -/

/-- Dynamically typed values as they flow through the agent layer: parsed
JSON tool results, tool arguments, and the fields the synthesizer reads. -/
inductive JVal where
  | null
  | bool (b : Bool)
  | num (n : Int)
  | str (s : String)
  | arr (l : List JVal)
  | obj (fields : List (String × JVal))

/-- Python exceptions that the embedded code can raise. -/
inductive PyErr where
  | attributeError (m : String)
  | keyError (m : String)
  | valueError (m : String)
  | typeError (m : String)
deriving DecidableEq

/-- Python truthiness (`bool(v)`) for the modelled value shapes. -/
def pyTruthy : JVal → Bool
  | .null => false
  | .bool b => b
  | .num n => n != 0
  | .str s => s != ""
  | .arr l => !l.isEmpty
  | .obj l => !l.isEmpty

/-- Display of a value inside an f-string (`str(v)`).  The `repr` of
containers is abstracted to a placeholder; no verified property depends on
it. -/
def jDisplay : JVal → String
  | .null => "None"
  | .bool true => "True"
  | .bool false => "False"
  | .num n => toString n
  | .str s => s
  | .arr _ => "<list>"
  | .obj _ => "<dict>"

/-- Python `v == "s"` for a string literal on the right: values of another
type compare unequal rather than raising. -/
def isStrEq (v : JVal) (s : String) : Bool :=
  match v with
  | .str t => t == s
  | _ => false

/-- Python `v.get(key, default)`: succeeds on a mapping, raises
`AttributeError` on any other value (as `list.get` / `str.get` would). -/
def pyGet (v : JVal) (key : String) (dflt : JVal) : Except PyErr JVal :=
  match v with
  | .obj fields => .ok ((List.lookup key fields).getD dflt)
  | _ => .error (.attributeError "get")

/-- Does the value have mapping shape? -/
def isObjB : JVal → Bool
  | .obj _ => true
  | _ => false

namespace Todo

/-! ## Task store and tool operations (`backend/src/mcp/tools.py`)

A `Task` row of the store.  UUID identities and owner ids are the underlying
128-bit numbers (string rendering by `str()` is injective and elided);
timestamps are abstract instants ordered as naturals.  `_serialize_task` is an
injective rendering of a row, so list results are stated on the rows
themselves. -/

structure Task where
  id : Nat
  user_id : Nat
  title : String
  description : Option String
  completed : Bool
  due_date : Option Nat
  created_at : Nat
  updated_at : Nat
deriving DecidableEq, Repr

/-- The owner-shared task table. -/
abbrev DB := List Task

/-- The error taxonomy of the tool layer.  Every constructor corresponds to a
`ValueError` raised by `tools.py` (carrying the message), except
`multipleResults`, which models SQLAlchemy's `MultipleResultsFound` raised by
`scalar_one_or_none` when a query matches more than one row. -/
inductive ToolErr where
  | invalidArg (m : String)
  | notFound
  | multipleResults
deriving DecidableEq, Repr

/-- The stdlib date parsers used by `add_task`/`update_task`
(`datetime.fromisoformat` and `datetime.strptime(_, "%Y-%m-%d")`), supplied
as collaborators returning an abstract instant or `none` when they raise. -/
structure DateLib where
  fromIso : String → Option Nat
  ymd : String → Option Nat

/-- The `try fromisoformat(s.replace("Z", "+00:00")) except: try strptime`
cascade shared by `add_task` and `update_task`. -/
def parseDue (dl : DateLib) (s : String) : Option Nat :=
  match dl.fromIso (s.replace "Z" "+00:00") with
  | some d => some d
  | none => dl.ymd s

/-- `scalar_one_or_none()` on the rows a query matched. -/
def scalarOneOrNone (l : List Task) : Except ToolErr (Option Task) :=
  match l with
  | [] => .ok none
  | [t] => .ok (some t)
  | _ => .error .multipleResults

/-- Replace the row with the given id (SQLAlchemy mutates the fetched object
in place; ids are unique primary keys). -/
def replaceById (db : DB) (t : Task) : DB :=
  db.map (fun u => if u.id = t.id then t else u)

/-- `tools.add_task`: validates that the title is non-empty after trimming,
parses the optional due date, and appends a fresh row owned by `uid`.
`newId` and `now` stand for the store-generated `uuid4()` and
`datetime.utcnow()` defaults. -/
def addTask (dl : DateLib) (db : DB) (uid : Nat) (title : String)
    (due : Option String) (newId now : Nat) : Except ToolErr (DB × Task) :=
  if pyStrip title = "" then .error (.invalidArg "Task title is required")
  else
    match due with
    | none =>
      let t : Task := ⟨newId, uid, pyStrip title, none, false, none, now, now⟩
      .ok (db ++ [t], t)
    | some s =>
      match parseDue dl s with
      | none => .error (.invalidArg
          ("Invalid due_date format: " ++ s ++ ". Use YYYY-MM-DD or ISO format"))
      | some d =>
        let t : Task := ⟨newId, uid, pyStrip title, none, false, some d, now, now⟩
        .ok (db ++ [t], t)

/-- Descending creation order, the `ORDER BY created_at DESC` relation. -/
def createdDesc (a b : Task) : Prop := b.created_at ≤ a.created_at

instance : DecidableRel createdDesc := fun a b => Nat.decLe b.created_at a.created_at

instance : IsTotal Task createdDesc :=
  ⟨fun a b => Nat.le_total b.created_at a.created_at⟩

instance : IsTrans Task createdDesc :=
  ⟨fun _ _ _ h₁ h₂ => Nat.le_trans h₂ h₁⟩

/-- `tools.list_tasks`: the owner's rows, optionally narrowed to pending
(`completed == False`) when `status == "pending"` or to completed rows when
`status == "complete"` (any other value leaves the query unfiltered), ordered
newest-created first. -/
def listTasks (db : DB) (uid : Nat) (status : Option String) : List Task :=
  let base := db.filter (fun t => t.user_id == uid)
  let narrowed :=
    if status = some "pending" then base.filter (fun t => t.completed == false)
    else if status = some "complete" then base.filter (fun t => t.completed == true)
    else base
  List.insertionSort createdDesc narrowed

/-- `tools.complete_task`: parses the task id, fetches the row scoped to the
owner, and sets `completed = True`. -/
def completeTask (db : DB) (uid : Nat) (tid : String) : Except ToolErr (DB × Task) :=
  match pyUUIDParse tid with
  | none => .error (.invalidArg ("Invalid task_id format: " ++ tid))
  | some pid =>
    match scalarOneOrNone (db.filter (fun u => u.id == pid && u.user_id == uid)) with
    | .error e => .error e
    | .ok none => .error .notFound
    | .ok (some t) =>
      let t' := { t with completed := true }
      .ok (replaceById db t', t')

/-- `tools.update_task`: parses the task id, fetches the row scoped to the
owner, then applies the supplied new title (rejecting an empty one) and due
date. -/
def updateTask (dl : DateLib) (db : DB) (uid : Nat) (tid : String)
    (title : Option String) (due : Option String) : Except ToolErr (DB × Task) :=
  match pyUUIDParse tid with
  | none => .error (.invalidArg ("Invalid task_id format: " ++ tid))
  | some pid =>
    match scalarOneOrNone (db.filter (fun u => u.id == pid && u.user_id == uid)) with
    | .error e => .error e
    | .ok none => .error .notFound
    | .ok (some t) =>
      let step1 : Except ToolErr Task :=
        match title with
        | none => .ok t
        | some s =>
          if pyStrip s = "" then .error (.invalidArg "Task title cannot be empty")
          else .ok { t with title := pyStrip s }
      match step1 with
      | .error e => .error e
      | .ok t₁ =>
        let step2 : Except ToolErr Task :=
          match due with
          | none => .ok t₁
          | some s =>
            match parseDue dl s with
            | none => .error (.invalidArg
                ("Invalid due_date format: " ++ s ++ ". Use YYYY-MM-DD or ISO format"))
            | some d => .ok { t₁ with due_date := some d }
        match step2 with
        | .error e => .error e
        | .ok t₂ => .ok (replaceById db t₂, t₂)

/-- Python truthiness of an optional string argument (`None` and `""` are
falsy). -/
def optTruthy : Option String → Bool
  | none => false
  | some s => s != ""

/-- `tools.delete_task`: requires a truthy `task_id` or `title`; resolves by
parsed id or by case-insensitive substring title match, always scoped to the
owner; removes the row and reports its id and title. -/
def deleteTask (db : DB) (uid : Nat) (tid : Option String)
    (title : Option String) : Except ToolErr (DB × Nat × String) :=
  if optTruthy tid = false ∧ optTruthy title = false then
    .error (.invalidArg "Either task_id or title must be provided")
  else
    let byRows (rows : List Task) : Except ToolErr (DB × Nat × String) :=
      match scalarOneOrNone rows with
      | .error e => .error e
      | .ok none => .error .notFound
      | .ok (some t) => .ok (db.filter (fun u => u.id != t.id), t.id, t.title)
    match tid with
    | some s =>
      if s != "" then
        match pyUUIDParse s with
        | none => .error (.invalidArg ("Invalid task_id format: " ++ s))
        | some pid => byRows (db.filter (fun u => u.id == pid && u.user_id == uid))
      else byRows (db.filter (fun u => containsIns u.title (title.getD "") && u.user_id == uid))
    | none => byRows (db.filter (fun u => containsIns u.title (title.getD "") && u.user_id == uid))

/-! ## Agent layer (`backend/src/agents/task_agent.py`)

`process_message` routes one incoming chat message.  The Groq network call
(lines 161-213 of the source, whose try/except always yields a response
string) is a collaborator supplied as the `llm` parameter, and the MCP tool
executor `mcp_server.call_tool` (defined in `task_server.py`, which only
this file's callers use) is the `exec` parameter: it yields the parsed JSON
of `result[0].text`, or `none` when the result is empty or falsy. -/

/-- One `{"tool", "arguments", "result"}` record of an executed tool call. -/
structure Record where
  tool : String
  arguments : JVal
  result : JVal

/-- The MCP tool executor collaborator. -/
abbrev ExecFn := String → List (String × JVal) → Option JVal

/-- The Groq-assisted path collaborator: ordered history plus the current
user message in, response text and recorded tool calls out. -/
abbrev LlmFn := List (String × String) → String × Option (List Record)

/-- The fixed greeting set of `process_message`. -/
def greetings : List String := ["hi", "hello", "hey", "salam", "assalam"]

/-- `message.lower().strip()`, the normalization applied before routing. -/
def msgLowerOf (msg : String) : String := pyStrip (pyLower msg)

/-- A double-quote character (written numerically to keep literals out of
delimiter position). -/
def quoteChar : Char := Char.ofNat 34

/-- A single-quote character. -/
def aposChar : Char := Char.ofNat 39

/-- The current title extracted by `_handle_rename_update`: the text before
the first `" to "`, trimmed, with one leading `rename`/`update` keyword
removed case-insensitively and the remainder trimmed again. -/
def extractOld (msg : String) : String :=
  let oldPart := pyStrip (splitFirst msg " to ").1
  if startsWith "rename" (pyLower oldPart) then pyStrip (strDrop oldPart 6)
  else if startsWith "update" (pyLower oldPart) then pyStrip (strDrop oldPart 6)
  else oldPart

/-- The new title extracted by `_handle_rename_update`: the text after the
first `" to "`, trimmed, then double quotes and single quotes stripped from
the ends. -/
def extractNew (msg : String) : String :=
  trimCharEnds aposChar (trimCharEnds quoteChar (pyStrip (splitFirst msg " to ").2))

/-- The argument mapping `_handle_rename_update` passes to `update_task`. -/
def renameArgs (uid msg : String) : List (String × JVal) :=
  [("user_id", .str uid), ("current_title", .str (extractOld msg)),
   ("title", .str (extractNew msg))]

/-- The format-help reply of the rename handler. -/
def fmtHelp : String := "❌ Please use format: 'rename [old name] to [new name]'"

/-- `_handle_rename_update` (task_agent.py lines 214-257): re-checks for the
literal separator in the original message, extracts both titles, and when
both are non-empty calls `update_task` directly; a result whose `status` is
`"updated"` yields the success confirmation and the recorded tool call, any
other parsed result yields the task-not-found reply.  A `.get` on a
non-mapping result raises inside the handler's try and is caught.  All other
paths fall through to the format-help reply. -/
def handleRenameUpdate (exec : ExecFn) (uid msg : String) :
    String × Option (List Record) :=
  if subS " to " msg then
    if extractOld msg ≠ "" ∧ extractNew msg ≠ "" then
      match exec "update_task" (renameArgs uid msg) with
      | some (JVal.obj fields) =>
        if isStrEq ((List.lookup "status" fields).getD JVal.null) "updated" then
          ("✏️ I've updated '" ++ extractOld msg ++ "' to '" ++ extractNew msg
              ++ "' successfully!",
           some [⟨"update_task", JVal.obj (renameArgs uid msg), JVal.obj fields⟩])
        else
          ("❌ Task '" ++ extractOld msg ++ "' not found. Please check the task name.",
           none)
      | some _ => ("❌ Error updating task: 'get'", none)
      | none => (fmtHelp, none)
    else (fmtHelp, none)
  else (fmtHelp, none)

/-- The agent's process-wide configuration (`GROQ_API_KEY` at construction). -/
structure AgentCfg where
  apiKey : Option String

/-- `TaskAgent.is_configured`: `bool(self.api_key)`. -/
def isConfigured (cfg : AgentCfg) : Bool :=
  match cfg.apiKey with
  | none => false
  | some s => s != ""

/-- The canned greeting reply. -/
def greetReply : String := "Hello! 😊 How can I help you with your tasks today?"

/-- `TaskAgent.process_message` (lines 139-213): greeting check first, the
direct rename/update path second, then the configured check — whose fallback
branch calls `self._fallback_process`, a method that does not exist (its
intended body is unreachable dead code inside `_handle_rename_update`), so
the branch raises `AttributeError` — and finally the model-assisted path. -/
def processMessage (cfg : AgentCfg) (llm : LlmFn) (exec : ExecFn)
    (uid msg : String) (hist : List (String × String)) :
    Except PyErr (String × Option (List Record)) :=
  if msgLowerOf msg ∈ greetings then .ok (greetReply, none)
  else if (subS "rename" (msgLowerOf msg) || subS "update" (msgLowerOf msg))
      && subS " to " (msgLowerOf msg) then
    .ok (handleRenameUpdate exec uid msg)
  else if isConfigured cfg = false then .error (.attributeError "_fallback_process")
  else .ok (llm (hist ++ [("user", msg)]))

/-! ## Response synthesis (`_generate_tool_response`, lines 305-363) -/

/-- Python truthiness of the optional `description` field, and of
`task.get("completed")`. -/
def fieldOf (fields : List (String × JVal)) (key : String) (dflt : JVal) : JVal :=
  (List.lookup key fields).getD dflt

/-- One line of the numbered task list.  Elements that are not mappings are
skipped (`continue`) but still consume their enumeration index. -/
def renderLine (i : Nat) (t : JVal) : String :=
  match t with
  | .obj fields =>
    let glyph := if pyTruthy (fieldOf fields "completed" .null) then "✅" else "⏳"
    let title := jDisplay (fieldOf fields "title" (.str "Untitled"))
    let desc := fieldOf fields "description" (.str "")
    toString i ++ ". " ++ glyph ++ " " ++ title ++
      (if pyTruthy desc then " - " ++ jDisplay desc else "") ++ "\n"
  | _ => ""

/-- The numbered list built from an iterable of task values. -/
def renderTasks (ts : List JVal) : String :=
  "📋 **Your Tasks:**\n\n" ++ String.join (ts.mapIdx (fun i t => renderLine (i + 1) t))

/-- The reply when the user has no tasks. -/
def emptyTasksReply : String := "📝 You don't have any tasks yet."

/-- The `list_tasks` branch of the synthesizer, whose body is wrapped in
try/except and therefore total: a list iterates normally; a mapping result
falls back to its `data` or `tasks` field; iterating a truthy non-iterable
raises `TypeError`, caught into the could-not-display reply; falsy shapes
take the `if not tasks` branch; iterating a string or mapping visits
non-mapping elements, which are all skipped. -/
def listTasksText (result : JVal) : String :=
  let tasks : JVal :=
    match result with
    | .arr l => .arr l
    | .obj fields => fieldOf fields "data" (fieldOf fields "tasks" (.arr []))
    | _ => .arr []
  match tasks with
  | .arr l => if l.isEmpty then emptyTasksReply else renderTasks l
  | .str s => if s = "" then emptyTasksReply
              else renderTasks (s.data.map (fun c => JVal.str (String.singleton c)))
  | .obj fields => if fields.isEmpty then emptyTasksReply
                   else renderTasks (fields.map (fun f => JVal.str f.1))
  | .null => emptyTasksReply
  | .bool b => if b then "Found tasks but couldn't display them: 'bool' object is not iterable"
               else emptyTasksReply
  | .num n => if n = 0 then emptyTasksReply
              else "Found tasks but couldn't display them: 'int' object is not iterable"

/-- Response for the first record, following the if/elif chain on the tool
name.  The non-`list_tasks` branches call `.get` on the result (and, for a
successful update, on the arguments) with no surrounding try, so a
non-mapping value raises `AttributeError`. -/
def genHead (tc : Record) : Except PyErr String :=
  if tc.tool = "add_task" then
    match pyGet tc.result "title" (.str "task") with
    | .error e => .error e
    | .ok t => .ok ("✅ I've added '" ++ jDisplay t ++ "' to your task list!")
  else if tc.tool = "list_tasks" then .ok (listTasksText tc.result)
  else if tc.tool = "delete_task" then
    match pyGet tc.result "title" (.str "task") with
    | .error e => .error e
    | .ok t => .ok ("🗑️ I've removed '" ++ jDisplay t ++ "' from your task list.")
  else if tc.tool = "update_task" then
    match pyGet tc.result "status" .null with
    | .error e => .error e
    | .ok st =>
      if isStrEq st "updated" then
        match pyGet tc.result "title" (.str "task"),
              pyGet tc.arguments "current_title" (.str "task") with
        | .error e, _ => .error e
        | .ok _, .error e => .error e
        | .ok t, .ok old =>
          .ok ("✏️ I've updated '" ++ jDisplay old ++ "' to '" ++ jDisplay t ++ "' successfully!")
      else .ok "❌ Task not found or couldn't be updated. Please check the task name."
  else if tc.tool = "complete_task" then
    match pyGet tc.result "title" (.str "task") with
    | .error e => .error e
    | .ok t => .ok ("🎉 Great! I've marked '" ++ jDisplay t ++ "' as completed!")
  else .ok "Task operation completed!"

/-- `_generate_tool_response`: the ready-to-help reply on no records,
otherwise the rendering of `tool_calls[0]` alone. -/
def genToolResponse : List Record → Except PyErr String
  | [] => .ok "I'm here to help with your tasks!"
  | tc :: _ => genHead tc

/-! ## Route guard (`backend/src/routes/chat.py`, `send_chat_message`) -/

/-- The HTTP outcome of one chat request: an `HTTPException` status and
detail, or the chat response.  Conversation persistence and the processing
inside the route's try (whose failures become status 500) are the `proceed`
collaborator. -/
def sendChatMessage (cfg : AgentCfg)
    (proceed : Unit → Except (Nat × String) (String × Option (List Record)))
    (msg : String) : Except (Nat × String) (String × Option (List Record)) :=
  if pyStrip msg = "" then .error (400, "Message is required")
  else if isConfigured cfg = false then .error (500, "Groq API key not configured")
  else proceed ()

/-! ## Model-facing tool schema and the MCP dispatch layer
(`get_tools_schema`, task_agent.py lines 61-137, and `call_tool`,
`backend/src/mcp/server.py` lines 176-251) -/

/-- One function-calling schema entry as presented to the model: the tool
name, its declared properties, and its required arguments. -/
structure ToolSchema where
  name : String
  props : List String
  required : List String
deriving DecidableEq, Repr

/-- `TaskAgent.get_tools_schema`, field names verbatim. -/
def getToolsSchema : List ToolSchema :=
  [⟨"add_task", ["title", "description"], ["title"]⟩,
   ⟨"list_tasks", ["status"], []⟩,
   ⟨"delete_task", ["title"], ["title"]⟩,
   ⟨"update_task", ["current_title", "title", "description"], ["current_title"]⟩,
   ⟨"complete_task", ["title"], ["title"]⟩]

/-- The `status` enumeration the schema offers the model for `list_tasks`. -/
def statusEnum : List String := ["all", "pending", "completed"]

/-- A tool invocation `server.call_tool` would hand to the corresponding
`tools.py` function, with the arguments it read. -/
inductive Dispatch where
  | addT (title : JVal) (due : Option JVal)
  | listT (status : Option JVal)
  | completeT (tid : JVal)
  | updateT (tid : JVal) (title : Option JVal) (due : Option JVal)
  | deleteT (tid : JVal)

/-- `server.call_tool`: requires a truthy `token` argument, verifies it via
the auth collaborator `vt`, strips it from the arguments, and reads each
tool's arguments — `tool_args["task_id"]` and `tool_args["title"]` raise
`KeyError` when absent, which the surrounding `except Exception` re-raises
as `ValueError("Tool execution failed: ...")`. -/
def callToolServer (vt : String → Option String) (name : String)
    (args : List (String × JVal)) : Except PyErr Dispatch :=
  match List.lookup "token" args with
  | none => .error (.valueError "Authentication token is required")
  | some tok =>
    if pyTruthy tok = false then .error (.valueError "Authentication token is required")
    else
      match tok with
      | .str s =>
        match vt s with
        | none => .error (.valueError "Invalid token: invalid")
        | some _uid =>
          let ta := args.filter (fun kv => kv.1 ≠ "token")
          match name with
          | "add_task" =>
            match List.lookup "title" ta with
            | none => .error (.valueError "Tool execution failed: 'title'")
            | some t => .ok (.addT t (List.lookup "due_date" ta))
          | "list_tasks" => .ok (.listT (List.lookup "status" ta))
          | "complete_task" =>
            match List.lookup "task_id" ta with
            | none => .error (.valueError "Tool execution failed: 'task_id'")
            | some x => .ok (.completeT x)
          | "update_task" =>
            match List.lookup "task_id" ta with
            | none => .error (.valueError "Tool execution failed: 'task_id'")
            | some x => .ok (.updateT x (List.lookup "title" ta) (List.lookup "due_date" ta))
          | "delete_task" =>
            match List.lookup "task_id" ta with
            | none => .error (.valueError "Tool execution failed: 'task_id'")
            | some x => .ok (.deleteT x)
          | _ => .error (.valueError ("Unknown tool: " ++ name))
      | _ => .error (.valueError "Invalid token: invalid")

/-- A token verifier that accepts every token (the drift theorems hold for
any verifier; this one witnesses them). -/
def vtOk : String → Option String := fun _ => some "u1"

/-- A date library under which no string parses (used only to instantiate
theorems whose inputs carry no due date). -/
def dlNone : DateLib := ⟨fun _ => none, fun _ => none⟩

/-- An inert model collaborator for closed instances. -/
def llm0 : LlmFn := fun _ => ("", none)

/-- An inert executor for closed instances. -/
def exec0 : ExecFn := fun _ _ => none

/-- The tools whose synthesizer branch reads `.get` on the result without a
surrounding try. -/
def mutatingTools : List String := ["add_task", "delete_task", "update_task", "complete_task"]

/-- Sufficient well-formedness of one tool-call record for the synthesizer
not to raise: the result is a mapping (and, for `update_task`, the arguments
too), or the tool is `list_tasks` (whose branch is try-wrapped), or the tool
is outside the known set (its branch reads nothing). -/
def recOK (r : Record) : Prop :=
  (isObjB r.result = true ∧ (r.tool = "update_task" → isObjB r.arguments = true))
  ∨ r.tool = "list_tasks" ∨ r.tool ∉ mutatingTools

instance (r : Record) : Decidable (recOK r) := by
  unfold recOK
  infer_instance

/-- `recOK` for the only record the synthesizer reads. -/
def headOK : List Record → Prop
  | [] => True
  | r :: _ => recOK r

instance : (rs : List Record) → Decidable (headOK rs)
  | [] => .isTrue trivial
  | r :: _ => inferInstanceAs (Decidable (recOK r))

/-- An executor whose every call reports `{"status": "updated"}` (closed
instances of the rename path). -/
def execUpd : ExecFn := fun _ _ => some (JVal.obj [("status", JVal.str "updated")])

/-! ## Helper lemmas -/

/-- `isStrEq` agrees with equality against a string constructor. -/
theorem isStrEq_iff (v : JVal) (s : String) : isStrEq v s = true ↔ v = .str s := by
  cases v <;> simp [isStrEq]

/-- A normalized message that contains a rename/update keyword is not in the
fixed greeting set (no greeting contains either keyword). -/
theorem kw_not_greeting {s : String}
    (h : (subS "rename" s || subS "update" s) = true) : s ∉ greetings := by
  intro hmem
  simp only [greetings, List.mem_cons, List.not_mem_nil, or_false] at hmem
  rcases hmem with h1 | h1 | h1 | h1 | h1 <;> subst h1 <;> revert h <;> decide

/-- In a table whose ids are distinct, two rows with the same id are the same
row. -/
theorem row_eq_of_id_eq {db : DB} {u t : Task}
    (hids : (db.map Task.id).Nodup) (hu : u ∈ db) (ht : t ∈ db)
    (hid : u.id = t.id) : u = t :=
  List.inj_on_of_nodup_map hids hu ht hid

/-- The owner-and-id query of `complete_task`/`update_task`/`delete_task`
matches nothing when the id belongs to a row of a different owner. -/
theorem id_query_empty {db : DB} {t : Task} {o1 : Nat}
    (hids : (db.map Task.id).Nodup) (ht : t ∈ db) (hown : t.user_id ≠ o1) :
    db.filter (fun u => u.id == t.id && u.user_id == o1) = [] := by
  apply List.filter_eq_nil_iff.mpr
  intro u hu
  simp only [Bool.and_eq_true, beq_iff_eq, not_and]
  intro hid huser
  exact hown (by rw [← row_eq_of_id_eq hids hu ht hid]; exact huser)

/-- A string that parses as a UUID is non-empty. -/
theorem uuid_ne_empty {s : String} {n : Nat} (h : pyUUIDParse s = some n) : s ≠ "" := by
  intro he
  subst he
  exact Option.noConfusion h

/-! ## Claim theorems -/

/-- C1: the claim says a missing LLM credential degrades message handling to
the heuristic fallback and never causes a hard failure.  The code hard-fails
twice over: the route `send_chat_message` rejects every message with HTTP
500 "Groq API key not configured" before processing when the agent is not
configured, and `process_message` itself would reach
`self._fallback_process`, a method that does not exist (its intended body is
unreachable dead code), raising `AttributeError`.  This theorem evaluates
both layers at the failing input `"add buy milk"` with no API key. -/
theorem c1_missing_credential_hard_failure :
    sendChatMessage ⟨none⟩ (fun _ => .ok ("", none)) "add buy milk"
      = .error (500, "Groq API key not configured")
    ∧ processMessage ⟨none⟩ llm0 exec0 "u1" "add buy milk" []
      = .error (.attributeError "_fallback_process") :=
  ⟨rfl, rfl⟩

/-- C3: the claim says every tool call conforming to the model-facing schema
is accepted by the execution layer.  The schema (`get_tools_schema`) requires
`title` for `delete_task`/`complete_task` and `current_title` for
`update_task`, with no token argument; `server.call_tool` instead demands a
truthy `token` and reads `tool_args["task_id"]` for those tools, so every
schema-conformant call is rejected with a `ValueError` rather than
dispatched.  Evaluated here on schema-conformant calls (the `user_id` field
is the one the agent injects). -/
theorem c3_tool_schema_drift :
    (⟨"delete_task", ["title"], ["title"]⟩ : ToolSchema) ∈ getToolsSchema
    ∧ (⟨"update_task", ["current_title", "title", "description"],
        ["current_title"]⟩ : ToolSchema) ∈ getToolsSchema
    ∧ (⟨"complete_task", ["title"], ["title"]⟩ : ToolSchema) ∈ getToolsSchema
    ∧ callToolServer vtOk "delete_task"
        [("title", JVal.str "buy milk"), ("user_id", JVal.str "u1")]
      = .error (.valueError "Authentication token is required")
    ∧ callToolServer vtOk "delete_task"
        [("token", JVal.str "tok"), ("title", JVal.str "buy milk")]
      = .error (.valueError "Tool execution failed: 'task_id'")
    ∧ callToolServer vtOk "update_task"
        [("token", JVal.str "tok"), ("current_title", JVal.str "a"), ("title", JVal.str "b")]
      = .error (.valueError "Tool execution failed: 'task_id'")
    ∧ callToolServer vtOk "complete_task"
        [("token", JVal.str "tok"), ("title", JVal.str "a")]
      = .error (.valueError "Tool execution failed: 'task_id'") :=
  ⟨by decide, by decide, by decide, rfl, rfl, rfl, rfl⟩

/-- C8: a message normalizing into the fixed greeting set is answered with
the canned greeting and no tool calls, before any other path and for every
configuration, model collaborator, and executor. -/
theorem c8_greeting_precedence (cfg : AgentCfg) (llm : LlmFn) (exec : ExecFn)
    (uid msg : String) (hist : List (String × String))
    (h : msgLowerOf msg ∈ greetings) :
    processMessage cfg llm exec uid msg hist = .ok (greetReply, none) := by
  unfold processMessage
  rw [if_pos h]

/-- Witness for C8 at the concrete message `" Hello "`, with the provider
unconfigured. -/
theorem c8_greeting_precedence_witness :
    msgLowerOf " Hello " ∈ greetings
    ∧ processMessage ⟨none⟩ llm0 exec0 "u1" " Hello " [] = .ok (greetReply, none) :=
  ⟨by decide, c8_greeting_precedence ⟨none⟩ llm0 exec0 "u1" " Hello " [] (by decide)⟩

/-- C10: the synthesized reply for a non-empty record list equals the reply
for the singleton holding its first record, so later records never reach the
user-facing text. -/
theorem c10_first_record_only (r : Record) (rs : List Record) :
    genToolResponse (r :: rs) = genToolResponse [r] := rfl

/-- Counterexample to C9 as stated: a `complete_task` record whose result is
a JSON array (not a mapping) makes the synthesizer raise `AttributeError`
instead of returning a best-effort string. -/
theorem c9_malformed_result_counterexample :
    genToolResponse [⟨"complete_task", JVal.obj [], JVal.arr []⟩]
      = .error (.attributeError "get") := rfl

/-- Counterexample to C5 as stated: with one pending task stored,
`list_tasks` filtered by `status="completed"` (the value the model-facing
schema offers) returns that pending task, because the code only recognises
the filter value `"complete"`. -/
theorem c5_status_completed_counterexample :
    listTasks [⟨0, 7, "A", none, false, none, 0, 0⟩] 7 (some "completed")
      = [⟨0, 7, "A", none, false, none, 0, 0⟩]
    ∧ (⟨0, 7, "A", none, false, none, 0, 0⟩ : Task).completed = false :=
  ⟨by decide, rfl⟩

/-- Counterexample to C6 as stated: `update_task` never resolves its target
by title.  The store holds `"buy milk"`, which contains `"BUY"` ignoring
case, yet addressing `update_task` with that string fails with the
invalid-task-id error instead of finding the task. -/
theorem c6_update_by_title_counterexample :
    containsIns "buy milk" "BUY" = true
    ∧ updateTask dlNone [⟨0, 7, "buy milk", none, false, none, 0, 0⟩] 7 "BUY"
        (some "x") none
      = .error (.invalidArg "Invalid task_id format: BUY") :=
  ⟨by decide, rfl⟩

/-- Counterexample to C4 as stated: `"rename to buy tikka"` contains the
keyword and the separator, so the claim demands `update_task("") ` be
invoked and a confirmation or not-found reply returned; the code instead
extracts an empty current title, invokes nothing (even under an executor
that always reports success), records no tool call, and answers with the
format-help message. -/
theorem c4_empty_current_title_counterexample :
    (subS "rename" (msgLowerOf "rename to buy tikka")
      || subS "update" (msgLowerOf "rename to buy tikka")) = true
    ∧ subS " to " "rename to buy tikka" = true
    ∧ processMessage ⟨some "k"⟩ llm0 execUpd "u1" "rename to buy tikka" []
      = .ok (fmtHelp, none)
    ∧ fmtHelp ≠ "✏️ I've updated '' to 'buy tikka' successfully!"
    ∧ fmtHelp ≠ "❌ Task '' not found. Please check the task name." :=
  ⟨by decide, by decide, rfl, by decide, by decide⟩

/-- C4 (amended): for a message whose lowercased trimmed text contains a
rename/update keyword and the separator `" to "`, and which contains
`" to "` literally, the router takes the direct path for every
configuration and model collaborator; writing `X`/`Y` for the titles
obtained by splitting at the first `" to "`, stripping the leading keyword
and stripping surrounding quotes, when both are non-empty it invokes
`update_task(current_title=X, title=Y)`; an executor result with status
`"updated"` yields the confirmation naming both titles (with the source's
pencil-glyph prefix) and the recorded call, any other parsed result yields
the task-not-found reply. -/
theorem c4_rename_direct_path (cfg : AgentCfg) (llm : LlmFn) (exec : ExecFn)
    (uid msg : String) (hist : List (String × String)) (fields : List (String × JVal))
    (hkw : (subS "rename" (msgLowerOf msg) || subS "update" (msgLowerOf msg)) = true)
    (hto : subS " to " (msgLowerOf msg) = true)
    (hto2 : subS " to " msg = true)
    (hX : extractOld msg ≠ "") (hY : extractNew msg ≠ "")
    (hexec : exec "update_task" (renameArgs uid msg) = some (JVal.obj fields)) :
    (List.lookup "status" fields = some (JVal.str "updated") →
      processMessage cfg llm exec uid msg hist
        = .ok ("✏️ I've updated '" ++ extractOld msg ++ "' to '" ++ extractNew msg
              ++ "' successfully!",
            some [⟨"update_task", JVal.obj (renameArgs uid msg), JVal.obj fields⟩]))
    ∧ (List.lookup "status" fields ≠ some (JVal.str "updated") →
      processMessage cfg llm exec uid msg hist
        = .ok ("❌ Task '" ++ extractOld msg
              ++ "' not found. Please check the task name.", none)) := by
  have hg : msgLowerOf msg ∉ greetings := kw_not_greeting hkw
  have hcond : ((subS "rename" (msgLowerOf msg) || subS "update" (msgLowerOf msg))
      && subS " to " (msgLowerOf msg)) = true := by rw [hkw, hto]; rfl
  have hroute : processMessage cfg llm exec uid msg hist
      = .ok (handleRenameUpdate exec uid msg) := by
    unfold processMessage
    rw [if_neg hg, if_pos hcond]
  have hhandler : handleRenameUpdate exec uid msg
      = if isStrEq ((List.lookup "status" fields).getD JVal.null) "updated" then
          ("✏️ I've updated '" ++ extractOld msg ++ "' to '" ++ extractNew msg
              ++ "' successfully!",
           some [⟨"update_task", JVal.obj (renameArgs uid msg), JVal.obj fields⟩])
        else
          ("❌ Task '" ++ extractOld msg ++ "' not found. Please check the task name.",
           none) := by
    unfold handleRenameUpdate
    rw [if_pos hto2, if_pos ⟨hX, hY⟩, hexec]
  constructor
  · intro hst
    rw [hroute, hhandler, hst]
    simp [isStrEq]
  · intro hst
    have hfalse : isStrEq ((List.lookup "status" fields).getD JVal.null) "updated" = false := by
      cases hlk : List.lookup "status" fields with
      | none => simp [isStrEq]
      | some v =>
        have hv : v ≠ JVal.str "updated" := fun he => hst (by rw [hlk, he])
        cases v <;> simp_all [isStrEq]
    rw [hroute, hhandler, hfalse]
    simp

/-- Witness for C4 at Scenario 2's message, under an executor reporting
success: both titles are extracted as the spec describes and the
confirmation names them. -/
theorem c4_rename_direct_path_witness :
    (subS "rename" (msgLowerOf "rename buy biryani to buy tikka")
      || subS "update" (msgLowerOf "rename buy biryani to buy tikka")) = true
    ∧ extractOld "rename buy biryani to buy tikka" = "buy biryani"
    ∧ extractNew "rename buy biryani to buy tikka" = "buy tikka"
    ∧ processMessage ⟨some "k"⟩ llm0 execUpd "u1" "rename buy biryani to buy tikka" []
        = .ok ("✏️ I've updated '" ++ extractOld "rename buy biryani to buy tikka"
              ++ "' to '" ++ extractNew "rename buy biryani to buy tikka"
              ++ "' successfully!",
            some [⟨"update_task",
                   JVal.obj (renameArgs "u1" "rename buy biryani to buy tikka"),
                   JVal.obj [("status", JVal.str "updated")]⟩]) :=
  ⟨by decide, by decide, by decide,
   (c4_rename_direct_path ⟨some "k"⟩ llm0 execUpd "u1" "rename buy biryani to buy tikka"
      [] [("status", JVal.str "updated")] (by decide) (by decide) (by decide)
      (by decide) (by decide) rfl).1 rfl⟩

/-- C2: owner isolation.  For owners `o1 ≠ o2` and a task `t` of `o2`:
`list_tasks(o1)` never includes a row of `o2`; `complete_task`, `update_task`
and `delete_task` invoked by `o1` against `t`'s id fail with the not-found
error; and `delete_task` by title fails with not-found when none of `o1`'s
own rows matches.  Every failing operation returns no new store, so `o2`'s
rows are unchanged. -/
theorem c2_owner_isolation (db : DB) (o1 o2 : Nat) (t : Task) (s key : String)
    (st : Option String) (dl : DateLib)
    (hne : o1 ≠ o2) (ht : t ∈ db) (hown : t.user_id = o2)
    (hids : (db.map Task.id).Nodup) (hs : pyUUIDParse s = some t.id)
    (hkey : key ≠ "")
    (hnom : ∀ u ∈ db, u.user_id = o1 → containsIns u.title key = false) :
    (∀ r ∈ listTasks db o1 st, r.user_id ≠ o2)
    ∧ completeTask db o1 s = .error .notFound
    ∧ updateTask dl db o1 s (some "x") none = .error .notFound
    ∧ deleteTask db o1 (some s) none = .error .notFound
    ∧ deleteTask db o1 none (some key) = .error .notFound := by
  have hno1 : t.user_id ≠ o1 := by rw [hown]; exact fun h => hne h.symm
  have hfil := id_query_empty hids ht hno1
  have hsne := uuid_ne_empty hs
  have hfil2 : db.filter (fun u => containsIns u.title key && u.user_id == o1) = [] := by
    apply List.filter_eq_nil_iff.mpr
    intro u hu
    simp only [Bool.and_eq_true, beq_iff_eq, not_and]
    intro hc hus
    rw [hnom u hu hus] at hc
    exact Bool.noConfusion hc
  refine ⟨?_, ?_, ?_, ?_, ?_⟩
  · intro r hr
    have hbase : r ∈ db.filter (fun u => u.user_id == o1) := by
      simp only [listTasks, List.mem_insertionSort] at hr
      split at hr
      · exact List.mem_of_mem_filter hr
      · split at hr
        · exact List.mem_of_mem_filter hr
        · exact hr
    have := (List.mem_filter.mp hbase).2
    simp only [beq_iff_eq] at this
    rw [this]
    exact fun h => hne h
  · simp [completeTask, hs, hfil, scalarOneOrNone]
  · simp [updateTask, hs, hfil, scalarOneOrNone]
  · simp [deleteTask, optTruthy, hsne, hs, hfil, scalarOneOrNone]
  · simp [deleteTask, optTruthy, hkey, hfil2, scalarOneOrNone]

/-- Witness for C2 on a one-row store owned by owner 2, probed by owner 1. -/
theorem c2_owner_isolation_witness :
    ((1 : Nat) ≠ 2
      ∧ (⟨0, 2, "A", none, false, none, 0, 0⟩ : Task)
          ∈ ([⟨0, 2, "A", none, false, none, 0, 0⟩] : DB)
      ∧ pyUUIDParse "00000000-0000-0000-0000-000000000000" = some 0
      ∧ ("milk" : String) ≠ "")
    ∧ ((∀ r ∈ listTasks [⟨0, 2, "A", none, false, none, 0, 0⟩] 1 none, r.user_id ≠ 2)
      ∧ completeTask [⟨0, 2, "A", none, false, none, 0, 0⟩] 1
          "00000000-0000-0000-0000-000000000000" = .error .notFound
      ∧ updateTask dlNone [⟨0, 2, "A", none, false, none, 0, 0⟩] 1
          "00000000-0000-0000-0000-000000000000" (some "x") none = .error .notFound
      ∧ deleteTask [⟨0, 2, "A", none, false, none, 0, 0⟩] 1
          (some "00000000-0000-0000-0000-000000000000") none = .error .notFound
      ∧ deleteTask [⟨0, 2, "A", none, false, none, 0, 0⟩] 1 none (some "milk")
          = .error .notFound) :=
  ⟨⟨by decide, by decide, by decide, by decide⟩,
   c2_owner_isolation [⟨0, 2, "A", none, false, none, 0, 0⟩] 1 2
     ⟨0, 2, "A", none, false, none, 0, 0⟩ "00000000-0000-0000-0000-000000000000" "milk"
     none dlNone (by decide) (by decide) rfl (by decide) (by decide) (by decide)
     (by decide)⟩

/-- C5 (amended): `list_tasks` returns exactly the owner's rows, narrowed to
pending rows for `status="pending"` and to completed rows for
`status="complete"`; every other status value — including `"all"`, no
status, and the schema's `"completed"` — leaves the list unfiltered; every
result is ordered newest-created first. -/
theorem c5_list_tasks_filter (db : DB) (uid : Nat) :
    (∀ u : Task, u ∈ listTasks db uid (some "pending")
        ↔ u ∈ db ∧ u.user_id = uid ∧ u.completed = false)
    ∧ (∀ u : Task, u ∈ listTasks db uid (some "complete")
        ↔ u ∈ db ∧ u.user_id = uid ∧ u.completed = true)
    ∧ (∀ st : Option String, st ≠ some "pending" → st ≠ some "complete" →
        ∀ u : Task, u ∈ listTasks db uid st ↔ u ∈ db ∧ u.user_id = uid)
    ∧ (∀ st : Option String, List.Sorted createdDesc (listTasks db uid st)) := by
  refine ⟨?_, ?_, ?_, ?_⟩
  · intro u
    simp only [listTasks, List.mem_insertionSort]
    simp [List.mem_filter, and_assoc]
    exact fun _ => and_comm
  · intro u
    simp only [listTasks, List.mem_insertionSort]
    simp [List.mem_filter, and_assoc]
    exact fun _ => and_comm
  · intro st h1 h2 u
    simp only [listTasks, List.mem_insertionSort]
    rw [if_neg h1, if_neg h2]
    simp [List.mem_filter]
  · intro st
    simp only [listTasks]
    exact List.sorted_insertionSort createdDesc _

/-- Witness for C5's unfiltered case at `status="all"` on a one-row store. -/
theorem c5_list_tasks_filter_witness :
    ((some "all" : Option String) ≠ some "pending")
    ∧ ((some "all" : Option String) ≠ some "complete")
    ∧ ((⟨0, 7, "A", none, false, none, 0, 0⟩ : Task)
        ∈ listTasks [⟨0, 7, "A", none, false, none, 0, 0⟩] 7 (some "all")
      ↔ (⟨0, 7, "A", none, false, none, 0, 0⟩ : Task)
          ∈ ([⟨0, 7, "A", none, false, none, 0, 0⟩] : DB)
        ∧ (⟨0, 7, "A", none, false, none, 0, 0⟩ : Task).user_id = 7) :=
  ⟨by decide, by decide,
   (c5_list_tasks_filter [⟨0, 7, "A", none, false, none, 0, 0⟩] 7).2.2.1 (some "all")
     (by decide) (by decide) _⟩

/-- C6 (amended): `delete_task` addressed by title resolves its target by
case-insensitive substring match scoped to the owner — when exactly one of
the owner's rows matches it is removed and reported; when none matches the
operation fails not-found with no removal.  `update_task` resolves only by
task identity: any non-UUID target string (a title in particular) fails with
the invalid-id error. -/
theorem c6_delete_title_resolution (db : DB) (uid : Nat) (key : String) (u : Task)
    (dl : DateLib) (hkey : key ≠ "") :
    (db.filter (fun v => containsIns v.title key && v.user_id == uid) = [u] →
      deleteTask db uid none (some key)
        = .ok (db.filter (fun v => v.id != u.id), u.id, u.title))
    ∧ (db.filter (fun v => containsIns v.title key && v.user_id == uid) = [] →
      deleteTask db uid none (some key) = .error .notFound)
    ∧ (∀ s ti du, pyUUIDParse s = none →
      updateTask dl db uid s ti du
        = .error (.invalidArg ("Invalid task_id format: " ++ s))) := by
  refine ⟨?_, ?_, ?_⟩
  · intro hfil
    simp [deleteTask, optTruthy, hkey, hfil, scalarOneOrNone]
  · intro hfil
    simp [deleteTask, optTruthy, hkey, hfil, scalarOneOrNone]
  · intro s ti du hparse
    simp [updateTask, hparse]

/-- Witness for C6: `"milk"` finds the stored `"Buy MILK please"` (substring,
case-insensitive) and the row is removed and reported. -/
theorem c6_delete_title_resolution_witness :
    ("milk" : String) ≠ ""
    ∧ ([⟨0, 7, "Buy MILK please", none, false, none, 0, 0⟩] : DB).filter
        (fun v => containsIns v.title "milk" && v.user_id == 7)
      = [⟨0, 7, "Buy MILK please", none, false, none, 0, 0⟩]
    ∧ deleteTask [⟨0, 7, "Buy MILK please", none, false, none, 0, 0⟩] 7 none (some "milk")
      = .ok (([⟨0, 7, "Buy MILK please", none, false, none, 0, 0⟩] : DB).filter
               (fun v => v.id != (⟨0, 7, "Buy MILK please", none, false, none, 0, 0⟩ : Task).id),
             (⟨0, 7, "Buy MILK please", none, false, none, 0, 0⟩ : Task).id,
             (⟨0, 7, "Buy MILK please", none, false, none, 0, 0⟩ : Task).title) :=
  ⟨by decide, by decide,
   (c6_delete_title_resolution [⟨0, 7, "Buy MILK please", none, false, none, 0, 0⟩] 7
      "milk" ⟨0, 7, "Buy MILK please", none, false, none, 0, 0⟩ dlNone (by decide)).1
     (by decide)⟩

/-- C7: `add_task` with a title non-empty after trimming appends a fresh row
with `completed = false`, the trimmed title and the requesting owner; the row
then appears in the owner's `list_tasks` and in no other owner's list.  An
empty-after-trim title fails with the invalid-argument error and creates
nothing. -/
theorem c7_add_task_roundtrip (dl : DateLib) (db : DB) (uid : Nat) (title : String)
    (newId now : Nat) :
    (pyStrip title ≠ "" →
      addTask dl db uid title none newId now
        = .ok (db ++ [⟨newId, uid, pyStrip title, none, false, none, now, now⟩],
               ⟨newId, uid, pyStrip title, none, false, none, now, now⟩)
      ∧ (⟨newId, uid, pyStrip title, none, false, none, now, now⟩ : Task)
          ∈ listTasks (db ++ [⟨newId, uid, pyStrip title, none, false, none, now, now⟩]) uid none
      ∧ (∀ o2 : Nat, o2 ≠ uid →
          (⟨newId, uid, pyStrip title, none, false, none, now, now⟩ : Task)
            ∉ listTasks (db ++ [⟨newId, uid, pyStrip title, none, false, none, now, now⟩]) o2 none))
    ∧ (pyStrip title = "" →
      addTask dl db uid title none newId now
        = .error (.invalidArg "Task title is required")) := by
  constructor
  · intro h
    refine ⟨by simp [addTask, h], ?_, ?_⟩
    · simp [listTasks, List.mem_filter]
    · intro o2 ho2 hmem
      simp [listTasks, List.mem_filter] at hmem
      rcases hmem with ⟨_, h⟩ | h <;> exact ho2 h.symm
  · intro h
    simp [addTask, h]

/-- Witness for C7: adding `"  buy milk  "` for owner 7 stores the trimmed
title as a pending task visible to owner 7 only. -/
theorem c7_add_task_roundtrip_witness :
    pyStrip "  buy milk  " ≠ ""
    ∧ pyStrip "  buy milk  " = "buy milk"
    ∧ (addTask dlNone [] 7 "  buy milk  " none 3 5
        = .ok ([] ++ [⟨3, 7, pyStrip "  buy milk  ", none, false, none, 5, 5⟩],
               ⟨3, 7, pyStrip "  buy milk  ", none, false, none, 5, 5⟩)
      ∧ (⟨3, 7, pyStrip "  buy milk  ", none, false, none, 5, 5⟩ : Task)
          ∈ listTasks ([] ++ [⟨3, 7, pyStrip "  buy milk  ", none, false, none, 5, 5⟩]) 7 none
      ∧ (∀ o2 : Nat, o2 ≠ 7 →
          (⟨3, 7, pyStrip "  buy milk  ", none, false, none, 5, 5⟩ : Task)
            ∉ listTasks ([] ++ [⟨3, 7, pyStrip "  buy milk  ", none, false, none, 5, 5⟩]) o2 none)) :=
  ⟨by decide, by decide, (c7_add_task_roundtrip dlNone [] 7 "  buy milk  " 3 5).1 (by decide)⟩

/-- A value of mapping shape is an `obj`. -/
theorem isObjB_iff (v : JVal) : isObjB v = true ↔ ∃ fields, v = .obj fields := by
  cases v <;> simp [isObjB]

/-- C9 (amended): the synthesizer returns the generic ready-to-help string
for the empty record list, and returns some display string — raising no
exception — for every record list whose first record is well-shaped: its
result is a mapping (and its arguments too, for `update_task`), or its tool
is `list_tasks` (whose branch is try-wrapped and total for every result
shape), or its tool is outside the known set. -/
theorem c9_synthesizer_totality (rs : List Record) (h : headOK rs) :
    (∃ s, genToolResponse rs = .ok s)
    ∧ genToolResponse [] = .ok "I'm here to help with your tasks!" := by
  refine ⟨?_, rfl⟩
  match rs, h with
  | [], _ => exact ⟨_, rfl⟩
  | r :: t, h =>
    have hrec : recOK r := h
    show ∃ s, genHead r = .ok s
    unfold genHead
    rcases hrec with ⟨hres, hupd⟩ | hlist | hout
    · obtain ⟨fs, hfs⟩ := (isObjB_iff r.result).mp hres
      by_cases h1 : r.tool = "add_task"
      · rw [if_pos h1, hfs]
        exact ⟨_, rfl⟩
      rw [if_neg h1]
      by_cases h2 : r.tool = "list_tasks"
      · rw [if_pos h2]
        exact ⟨_, rfl⟩
      rw [if_neg h2]
      by_cases h3 : r.tool = "delete_task"
      · rw [if_pos h3, hfs]
        exact ⟨_, rfl⟩
      rw [if_neg h3]
      by_cases h4 : r.tool = "update_task"
      · rw [if_pos h4, hfs]
        obtain ⟨gs, hgs⟩ := (isObjB_iff r.arguments).mp (hupd h4)
        rw [hgs]
        simp only [pyGet]
        by_cases hst : isStrEq ((List.lookup "status" fs).getD JVal.null) "updated" = true
        · rw [if_pos hst]
          exact ⟨_, rfl⟩
        · rw [if_neg hst]
          exact ⟨_, rfl⟩
      rw [if_neg h4]
      by_cases h5 : r.tool = "complete_task"
      · rw [if_pos h5, hfs]
        exact ⟨_, rfl⟩
      rw [if_neg h5]
      exact ⟨_, rfl⟩
    · rw [hlist]
      exact ⟨listTasksText r.result, by simp⟩
    · simp only [mutatingTools, List.mem_cons, List.not_mem_nil, or_false, not_or] at hout
      by_cases hl : r.tool = "list_tasks"
      · rw [hl]
        exact ⟨listTasksText r.result, by simp⟩
      · rw [if_neg hout.1, if_neg hl, if_neg hout.2.1, if_neg hout.2.2.1,
          if_neg hout.2.2.2]
        exact ⟨_, rfl⟩

/-- Witness for C9 on a well-shaped `add_task` record. -/
theorem c9_synthesizer_totality_witness :
    headOK [⟨"add_task", JVal.obj [], JVal.obj [("title", JVal.str "buy milk")]⟩]
    ∧ ((∃ s, genToolResponse
          [⟨"add_task", JVal.obj [], JVal.obj [("title", JVal.str "buy milk")]⟩] = .ok s)
      ∧ genToolResponse [] = .ok "I'm here to help with your tasks!") :=
  ⟨by decide,
   c9_synthesizer_totality
     [⟨"add_task", JVal.obj [], JVal.obj [("title", JVal.str "buy milk")]⟩] (by decide)⟩

end Todo
